import Mathlib

/-!
Shallow embedding of the drover process-supervision library.

The embedding follows the source files: the worker status codes
(src/WorkerStatuses.js), the exit-reason variants (src/ExitReasons.js), the
supervisor-side worker handle (src/Worker.js), the child-side status channel
(src/MessageBus.js), the orchestrator (src/Master.js) and the timeout-bounded
status manager (src/SheepStatusManager.js).  Child processes are external, so
the behaviour of a forked child during startup is abstracted by an environment
`env : Nat -> Bool` telling whether the child forked with a given cluster id
comes up successfully; the cooperative stop/quit handshakes of live children
are modelled as succeeding.  Group operations record a trace of the per-child
actions they issue (start, graceful stop, graceful kill, hard kill), in order.
-/

/-! Worker status codes, from src/WorkerStatuses.js. -/

def WorkerStatuses.INITIALIZED : Nat := 1

def WorkerStatuses.STARTING : Nat := 2

def WorkerStatuses.STARTED : Nat := 3

def WorkerStatuses.STOPPING : Nat := 4

def WorkerStatuses.STOPPED : Nat := 5

def WorkerStatuses.SHUTTING_DOWN : Nat := 6

def WorkerStatuses.SHUTTED_DOWN : Nat := 7

def WorkerStatuses.FAILED : Nat := 8

/-- Values of the status enum, as `_.values(WorkerStatuses)` enumerates them in
`Worker._changeStatus`. -/
def WorkerStatuses.values : List Nat := [1, 2, 3, 4, 5, 6, 7, 8]

/-- Exit reasons, from src/ExitReasons.js: three tagged variants whose payload
carries the raw signal name or exit code. -/
inductive ExitReason where
  | ExternalSignal (signal : String)
  | NormalExit (code : Int)
  | AbnormalExit (code : Int)
deriving DecidableEq, Repr

/-- Error taxonomy, from src/Error.js, plus `TypeErrorUndefined` for the
JavaScript `TypeError` raised by dereferencing an `undefined` value, and
`WorkerStartError` standing for whatever error a failed `Worker.start` call
rejects with (a spawn error or a `WorkerStatusError`). -/
inductive Err where
  | AlreadyInitializedError
  | InvalidArgumentError
  | InappropriateConditionError
  | InvalidConfigurationError
  | WorkerStartError
  | UnexpectedWorkerState
  | TypeErrorUndefined
  | TimeoutError
deriving DecidableEq, Repr

/-- Truthiness of the optional `signal` string argument of the node `exit`
event, as tested by `if (signal)` in `Worker._exitHandler`: `null` and the
empty string are falsy. -/
def jsTruthy : Option String → Bool
  | none => false
  | some s => s != ""

/-- Event name of a child-to-supervisor status report. -/
def statusChangedEvent : String := "status-changed"

/-! Supervisor-side worker handle, from src/Worker.js.  The handle state the
claims depend on is the status (`this._status`) and the child-process
reference; `procId` is `none` while `this._worker` is `undefined` and
`some id` once a child with cluster id `id` has been forked
(`getId()` returns `this._worker && this._worker.id`). -/

structure Worker where
  procId : Option Nat
  status : Nat
deriving DecidableEq, Repr

/-- Model of `Worker._changeStatus`: throws `InvalidArgumentError` when the
given status is not a member of the status enum; otherwise, when the status
differs from the current one, stores it and emits a `status-changed` event
(returned as the list of emitted status values), and does nothing when it is
equal. -/
def Worker.changeStatus (w : Worker) (status : Nat) : Except Err (Worker × List Nat) :=
  if status ∈ WorkerStatuses.values then
    if w.status ≠ status then Except.ok ({ w with status := status }, [status])
    else Except.ok (w, [])
  else Except.error Err.InvalidArgumentError

/-- Model of `Worker._messageHandler`: a plain-object message whose `event` is
`status-changed` feeds its payload to `_changeStatus`, swallowing any error
(the catch only logs); every other event is ignored. -/
def Worker.messageHandler (w : Worker) (event : String) (payload : Nat) : Worker :=
  if event = statusChangedEvent then
    match w.changeStatus payload with
    | Except.ok (w2, _) => w2
    | Except.error _ => w
  else w

/-- Model of `Worker._exitHandler`, the exit classification: in status
`STOPPING` or `SHUTTING_DOWN` the call `this._changeStatus(this._status)` is a
no-op and a `NormalExit` is emitted only when the exit code is 0 (a nonzero
code in these statuses emits nothing); in every other status the status is set
to `FAILED` and an `ExternalSignal` is emitted when the `signal` argument is
truthy, an `AbnormalExit` otherwise.  The second component collects the
emitted `exit` events.  (`FAILED` is a member of the status enum, so the
throwing path of `_changeStatus` cannot trigger here.) -/
def Worker.exitHandler (w : Worker) (code : Int) (signal : Option String) :
    Worker × List ExitReason :=
  if w.status = WorkerStatuses.STOPPING ∨ w.status = WorkerStatuses.SHUTTING_DOWN then
    (w, if code = 0 then [ExitReason.NormalExit code] else [])
  else
    ({ w with status := WorkerStatuses.FAILED },
     if jsTruthy signal then
       [ExitReason.ExternalSignal (signal.getD default)]
     else
       [ExitReason.AbnormalExit code])

/-- Outcome of `Worker._assureStatusSequence` after a (possibly incomplete)
stream of observed `status-changed` values: the promise has resolved, has
rejected with a `WorkerStatusError` carrying the expected and the actual
status, or is still waiting for the remaining expected values. -/
inductive AssureOutcome where
  | resolved
  | rejected (expectedStatus actualStatus : Nat)
  | waiting (remaining : List Nat)
deriving DecidableEq, Repr

/-- Model of `Worker._assureStatusSequence`: each observed `status-changed`
value is compared against the head of the expected sequence (shifted off);
a mismatch rejects with the expected/actual pair; once the expected sequence
is exhausted the listener is removed and the promise resolves.  The case of an
empty expected list with observations left is unreachable from a nonempty
expectation, because the listener is removed exactly at resolution. -/
def assureStatusSequence : List Nat → List Nat → AssureOutcome
  | remaining, [] => AssureOutcome.waiting remaining
  | [], _ :: _ => AssureOutcome.resolved
  | e :: es, a :: rest =>
    if a ≠ e then AssureOutcome.rejected e a
    else if es.isEmpty then AssureOutcome.resolved
    else assureStatusSequence es rest

/-- Model of `Worker.start` as far as its settlement is determined by the
stream of `status-changed` values observed after the fork: it rejects with
`UnexpectedWorkerState` unless the current status is `INITIALIZED`, and
otherwise settles as `_assureStatusSequence([STARTING, STARTED])` does on the
observed stream. -/
def Worker.startOutcome (w : Worker) (observed : List Nat) : Except Err AssureOutcome :=
  if w.status ≠ WorkerStatuses.INITIALIZED then Except.error Err.UnexpectedWorkerState
  else
    Except.ok (assureStatusSequence
      [WorkerStatuses.STARTING, WorkerStatuses.STARTED] observed)

/-! Child-side status channel, from src/MessageBus.js.  Its state is the local
status and the list of messages sent upstream over IPC. -/

structure MessageBus where
  status : Nat
  sent : List (String × Nat)
deriving DecidableEq, Repr

/-- Model of `MessageBus._changeStatus`: when the target differs from the local
status it sends a `status-changed` report upstream and then stores the target;
otherwise it does nothing. -/
def MessageBus.changeStatus (b : MessageBus) (status : Nat) : MessageBus :=
  if b.status ≠ status then
    { status := status, sent := b.sent ++ [(statusChangedEvent, status)] }
  else b

/-- Model of `MessageBus.sendStarted`. -/
def MessageBus.sendStarted (b : MessageBus) : MessageBus :=
  b.changeStatus WorkerStatuses.STARTED

/-- Model of `MessageBus.sendStopped`. -/
def MessageBus.sendStopped (b : MessageBus) : MessageBus :=
  b.changeStatus WorkerStatuses.STOPPED

/-- Model of `MessageBus.sendShuttedDown`. -/
def MessageBus.sendShuttedDown (b : MessageBus) : MessageBus :=
  b.changeStatus WorkerStatuses.SHUTTED_DOWN

/-! Orchestrator, from src/Master.js.  Master-level group operations act on the
handle state above.  A child's behaviour during startup is decided by the
environment `env : Nat -> Bool` (whether the child forked with a given cluster
id goes online and reports STARTING followed by STARTED); stop/quit handshakes
of live children are modelled as cooperating.  Cluster ids are handed out by a
monotone counter `nextId`, as `cluster.fork()` hands out fresh worker ids. -/

inductive ChildAction where
  | startW (id : Nat)
  | stopW (id : Nat)
  | gracefulKill (id : Nat)
  | hardKill (id : Nat)
deriving DecidableEq, Repr

def Master.STATUS_SHUTTED_DOWN : Nat := 1

def Master.STATUS_STARTING : Nat := 2

def Master.STATUS_STARTED : Nat := 3

def Master.STATUS_STOPPING : Nat := 4

def Master.STATUS_STOPPED : Nat := 5

structure Master where
  status : Nat
  scale : Int
  workers : List Worker
  nextId : Nat
deriving DecidableEq, Repr

/-- Result of one Master operation: the settlement of its promise, the
orchestrator state it leaves behind, and the trace of per-child actions it
issued, in order. -/
structure MasterStep (α : Type) where
  result : Except Err α
  state : Master
  trace : List ChildAction
deriving Repr

/-- A freshly instantiated worker handle (`new Worker(...)`): no child process,
status `INITIALIZED`. -/
def newWorker : Worker :=
  { procId := none, status := WorkerStatuses.INITIALIZED }

/-- Model of `Master._createWorkerCollection`: `count` fresh handles. -/
def Master.createWorkerCollection (count : Nat) : List Worker :=
  List.replicate count newWorker

/-- Model of the `Master` constructor for a validated configuration with
replica count `count`: desired scale `count`, a collection of `count` fresh
handles, status `SHUTTED_DOWN`. -/
def Master.create (count : Nat) : Master :=
  { status := Master.STATUS_SHUTTED_DOWN
    scale := (count : Int)
    workers := Master.createWorkerCollection count
    nextId := 0 }

/-- Model of one `worker.start()` call at the group level.  From a status other
than `INITIALIZED` it rejects (`UnexpectedWorkerState`) without forking.
Otherwise a child is forked with the next cluster id; when `env` accepts the
id the child goes online and reports STARTING then STARTED, so the call
resolves with the handle STARTED; when `env` refuses it, the child went online
(STARTING) and then failed, so the call rejects with the handle left at its
last observed status.  Returns success, the handle, the next fresh id, and the
trace (a `startW` action for a successful start). -/
def workerStart (env : Nat → Bool) (nid : Nat) (w : Worker) :
    Bool × Worker × Nat × List ChildAction :=
  if w.status ≠ WorkerStatuses.INITIALIZED then (false, w, nid, [])
  else if env nid then
    (true, { procId := some nid, status := WorkerStatuses.STARTED }, nid + 1,
     [ChildAction.startW nid])
  else
    (false, { procId := some nid, status := WorkerStatuses.STARTING }, nid + 1, [])

/-- Model of `Worker.stop`: with no child reference it resolves immediately as
a no-op; otherwise it sends STOP and the cooperating child reports STOPPING
then STOPPED. -/
def workerStop (w : Worker) : Worker × List ChildAction :=
  match w.procId with
  | none => (w, [])
  | some id => ({ w with status := WorkerStatuses.STOPPED }, [ChildAction.stopW id])

/-- Model of `Worker.quit`: unlike `stop`, `quit` never checks `this._worker`.
With no child reference, both the forced path (`this._worker.process.kill`)
and the graceful path (`this._worker.send` inside `_sendMessage`) dereference
`undefined` and throw a `TypeError`.  With a child, `force` issues SIGKILL and
resolves immediately without touching the status; the graceful path sends QUIT
and the cooperating child reports SHUTTING_DOWN then SHUTTED_DOWN. -/
def workerQuit (force : Bool) (w : Worker) : Except Err (Worker × List ChildAction) :=
  match w.procId with
  | none => Except.error Err.TypeErrorUndefined
  | some id =>
    if force then Except.ok (w, [ChildAction.hardKill id])
    else Except.ok ({ w with status := WorkerStatuses.SHUTTED_DOWN },
                    [ChildAction.gracefulKill id])

/-- Model of `Master._startGroup`: starts the handles sequentially; the first
failure propagates, leaving the earlier handles started (they are mutated in
place) and the later ones untouched.  Returns the collection, the next fresh
id, the trace, and whether the whole group started. -/
def startGroup (env : Nat → Bool) : List Worker → Nat → List Worker × Nat × List ChildAction × Bool
  | [], nid => ([], nid, [], true)
  | w :: ws, nid =>
    match workerStart env nid w with
    | (true, w2, nid1, tr1) =>
      let (ws2, nid2, tr2, ok) := startGroup env ws nid1
      (w2 :: ws2, nid2, tr1 ++ tr2, ok)
    | (false, w2, nid1, tr1) => (w2 :: ws, nid1, tr1, false)

/-- Model of `Master._stopGroup`: stops the handles sequentially. -/
def stopGroup : List Worker → List Worker × List ChildAction
  | [] => ([], [])
  | w :: ws =>
    let (w2, tr1) := workerStop w
    let (ws2, tr2) := stopGroup ws
    (w2 :: ws2, tr1 ++ tr2)

/-- Model of `Master._killGroup`: quits the handles sequentially; the first
failure propagates, leaving the later handles untouched. -/
def killGroup (isHard : Bool) : List Worker → List Worker × List ChildAction × Bool
  | [] => ([], [], true)
  | w :: ws =>
    match workerQuit isHard w with
    | Except.ok (w2, tr1) =>
      let (ws2, tr2, ok) := killGroup isHard ws
      (w2 :: ws2, tr1 ++ tr2, ok)
    | Except.error _ => (w :: ws, [], false)

/-- Model of `Master.start`: only allowed from `SHUTTED_DOWN` or `STOPPED`
(else `AlreadyInitializedError`); moves to `STARTING`, starts the collection,
and on success moves to `STARTED`.  On failure the error of `_startGroup`
propagates as is: the status stays `STARTING` and the collection keeps the
already-started handles — no teardown of any kind is issued. -/
def Master.start (env : Nat → Bool) (m : Master) : MasterStep Unit :=
  if ¬ (m.status ∈ [Master.STATUS_SHUTTED_DOWN, Master.STATUS_STOPPED]) then
    { result := Except.error Err.AlreadyInitializedError, state := m, trace := [] }
  else
    let m1 := { m with status := Master.STATUS_STARTING }
    let (ws, nid, tr, ok) := startGroup env m1.workers m1.nextId
    if ok then
      { result := Except.ok ()
        state := { m1 with workers := ws, nextId := nid, status := Master.STATUS_STARTED }
        trace := tr }
    else
      { result := Except.error Err.WorkerStartError
        state := { m1 with workers := ws, nextId := nid }
        trace := tr }

/-- Model of `Master.getWorkersStatuses`. -/
def Master.getWorkersStatuses (m : Master) : List Nat :=
  m.workers.map Worker.status

/-- Model of `Master.rescale`: rejects a non-positive size
(`InvalidArgumentError`) or a non-STARTED master (`InappropriateConditionError`);
stores the desired scale; with positive delta creates and starts that many
fresh handles and appends them (on a start failure the push never happens);
with negative delta splices that many handles off the front of the collection
and gracefully quits them (the splice happens before the kills, so the
collection is already shrunk if a kill fails); resolves with the delta. -/
def Master.rescale (env : Nat → Bool) (m : Master) (size : Int) : MasterStep Int :=
  if size ≤ 0 then
    { result := Except.error Err.InvalidArgumentError, state := m, trace := [] }
  else if m.status ≠ Master.STATUS_STARTED then
    { result := Except.error Err.InappropriateConditionError, state := m, trace := [] }
  else
    let m1 := { m with scale := size }
    let delta : Int := size - (m1.workers.length : Int)
    if delta > 0 then
      let newcomers := Master.createWorkerCollection delta.toNat
      let (started, nid, tr, ok) := startGroup env newcomers m1.nextId
      if ok then
        { result := Except.ok delta
          state := { m1 with workers := m1.workers ++ started, nextId := nid }
          trace := tr }
      else
        { result := Except.error Err.WorkerStartError
          state := { m1 with nextId := nid }
          trace := tr }
    else if delta < 0 then
      let victims := m1.workers.take delta.natAbs
      let rest := m1.workers.drop delta.natAbs
      let (_, tr, ok) := killGroup false victims
      if ok then
        { result := Except.ok delta, state := { m1 with workers := rest }, trace := tr }
      else
        { result := Except.error Err.TypeErrorUndefined
          state := { m1 with workers := rest }
          trace := tr }
    else
      { result := Except.ok delta, state := m1, trace := [] }

/-- Model of `Master._gracefulStop`: only from `STARTED`; moves to `STOPPING`,
stops the collection, moves to `STOPPED`. -/
def Master.gracefulStop (m : Master) : MasterStep Unit :=
  if m.status ≠ Master.STATUS_STARTED then
    { result := Except.error Err.InappropriateConditionError, state := m, trace := [] }
  else
    let (ws, tr) := stopGroup m.workers
    { result := Except.ok ()
      state := { m with workers := ws, status := Master.STATUS_STOPPED }
      trace := tr }

/-- Model of `Master.gracefulShutdown`: only from `STARTED` or `STOPPED`; runs
the internal graceful stop unless already `STOPPED`, then gracefully quits
every handle, empties the collection and moves to `SHUTTED_DOWN`.  A failing
quit propagates with the collection left as the kill loop mutated it. -/
def Master.gracefulShutdown (m : Master) : MasterStep Unit :=
  if ¬ (m.status ∈ [Master.STATUS_STARTED, Master.STATUS_STOPPED]) then
    { result := Except.error Err.InappropriateConditionError, state := m, trace := [] }
  else
    let s1 :=
      if m.status ≠ Master.STATUS_STOPPED then Master.gracefulStop m
      else { result := Except.ok (), state := m, trace := [] }
    match s1.result with
    | Except.error e => { result := Except.error e, state := s1.state, trace := s1.trace }
    | Except.ok _ =>
      let (ws, tr, ok) := killGroup false s1.state.workers
      if ok then
        { result := Except.ok ()
          state := { s1.state with workers := [], status := Master.STATUS_SHUTTED_DOWN }
          trace := s1.trace ++ tr }
      else
        { result := Except.error Err.TypeErrorUndefined
          state := { s1.state with workers := ws }
          trace := s1.trace ++ tr }

/-- Model of `Master.hardShutdown`: force-quits every handle (no status
precondition) and moves to `SHUTTED_DOWN`.  The collection is not emptied.
A failing quit propagates before the status assignment. -/
def Master.hardShutdown (m : Master) : MasterStep Unit :=
  let (ws, tr, ok) := killGroup true m.workers
  if ok then
    { result := Except.ok ()
      state := { m with workers := ws, status := Master.STATUS_SHUTTED_DOWN }
      trace := tr }
  else
    { result := Except.error Err.TypeErrorUndefined
      state := { m with workers := ws }
      trace := tr }

/-- Model of `Master.gracefulReload`: only from `STARTED`; keeps the old
collection aside (`_.cloneDeep` copies the handle objects; the copies refer to
the same underlying children), replaces the collection with a fresh one sized
to the desired scale, starts it, then stops the old set, then gracefully quits
the old set. -/
def Master.gracefulReload (env : Nat → Bool) (m : Master) : MasterStep Unit :=
  if m.status ≠ Master.STATUS_STARTED then
    { result := Except.error Err.InappropriateConditionError, state := m, trace := [] }
  else
    let oldWorkers := m.workers
    let fresh := Master.createWorkerCollection m.scale.toNat
    let (started, nid, tr1, ok) := startGroup env fresh m.nextId
    let m1 := { m with workers := started, nextId := nid }
    if ok then
      let (stopped, tr2) := stopGroup oldWorkers
      let (_, tr3, kok) := killGroup false stopped
      if kok then
        { result := Except.ok (), state := m1, trace := tr1 ++ tr2 ++ tr3 }
      else
        { result := Except.error Err.TypeErrorUndefined
          state := m1
          trace := tr1 ++ tr2 ++ tr3 }
    else
      { result := Except.error Err.WorkerStartError, state := m1, trace := tr1 }

/-! Timeout-bounded status assurance, from src/SheepStatusManager.js.  A
pending wait is what the stored promise of `_pending[id]` lets the manager
reach: whether the timer armed by `_deferredStatus` is still armed, and how
the wait has settled (`some (ok status)` resolved, `some (error ..)` rejected,
`none` pending). -/

deriving instance DecidableEq for Except

structure PendingWait where
  timerArmed : Bool
  settled : Option (Except Err Nat)
deriving DecidableEq, Repr

structure SheepStatusManager where
  statusTimeout : Nat
  bound : Bool
  pending : List (Nat × PendingWait)
deriving DecidableEq, Repr

/-- Model of the `SheepStatusManager` constructor: `config.statusTimeout` must
be a positive safe integer. -/
def SheepStatusManager.create (statusTimeout : Nat) : Except Err SheepStatusManager :=
  if statusTimeout = 0 then Except.error Err.InvalidConfigurationError
  else Except.ok { statusTimeout := statusTimeout, bound := false, pending := [] }

/-- Model of `SheepStatusManager.bindDrover`: binds at most once and registers
the `SHEEP_STATUS_CHANGE` listener (`onSheepStatusChange` below). -/
def SheepStatusManager.bindDrover (mgr : SheepStatusManager) :
    Except Err SheepStatusManager :=
  if mgr.bound then Except.error Err.InvalidConfigurationError
  else Except.ok { mgr with bound := true }

/-- Model of `SheepStatusManager._deferredStatus`.  The body builds a promise,
attaches `resolve`, `reject` and `timeout` properties to that promise object
and arms the timer.  Because `_deferredStatus` is declared `async`, its caller
receives the async function wrapper promise, which adopts the settlement of
the inner promise but carries none of the attached properties.  The model
therefore records what is reachable through the stored wrapper: the armed
timer and the (eventual) settlement. -/
def SheepStatusManager.deferredStatus : PendingWait :=
  { timerArmed := true, settled := none }

/-- Model of `SheepStatusManager.assure`: requires a bound drover; registers a
fresh deferred wait for the id unless one is already pending, and returns the
stored wait.  The `status` argument is accepted but never consulted by the
source. -/
def SheepStatusManager.assure (mgr : SheepStatusManager) (id status : Nat) :
    Except Err (SheepStatusManager × PendingWait) :=
  if ¬ mgr.bound then Except.error Err.InvalidConfigurationError
  else
    match mgr.pending.lookup id with
    | some p => Except.ok (mgr, p)
    | none =>
      let p := SheepStatusManager.deferredStatus
      Except.ok ({ mgr with pending := mgr.pending ++ [(id, p)] }, p)

/-- Model of the `SHEEP_STATUS_CHANGE` listener that `bindDrover` registers.
For a pending id it runs `clearTimeout(this._pending[id].timeout)` and then
`this._pending[id].resolve(status)`.  On the stored wrapper promise both
properties are `undefined` (they were attached to the inner promise of
`_deferredStatus`, not to the async wrapper): `clearTimeout(undefined)` is a
no-op, so the timer stays armed, and calling `undefined` throws a `TypeError`,
so the wait is left unsettled.  Returns the updated manager and the error the
listener threw, if any. -/
def SheepStatusManager.onSheepStatusChange (mgr : SheepStatusManager)
    (id status : Nat) : SheepStatusManager × Option Err :=
  if ¬ mgr.bound then (mgr, none)
  else
    match mgr.pending.lookup id with
    | none => (mgr, none)
    | some _ => (mgr, some Err.TypeErrorUndefined)

/-- Model of the timer armed by `_deferredStatus` firing for `id`: it rejects
the inner promise with `TimeoutError`, and the stored wrapper promise adopts
that rejection. -/
def SheepStatusManager.onStatusTimeout (mgr : SheepStatusManager) (id : Nat) :
    SheepStatusManager :=
  { mgr with
    pending := mgr.pending.map fun e =>
      if e.1 = id ∧ e.2.timerArmed then
        (e.1, { timerArmed := false, settled := some (Except.error Err.TimeoutError) })
      else e }

/-! Definitions taken from the wording of the specification, for comparison
with the definitions above that embed the source. -/

/-- Status transition relation as the spec invariant words it (claim C5): the
status only moves forward along INITIALIZED -> STARTING -> STARTED -> STOPPING
-> STOPPED and STARTED/STOPPED -> SHUTTING_DOWN -> SHUTTED_DOWN, with no
skipping and no reversal, except for an unconditional jump to FAILED from any
state. -/
def specForwardStep (a b : Nat) : Bool :=
  decide ((a, b) ∈ [
    (WorkerStatuses.INITIALIZED, WorkerStatuses.STARTING),
    (WorkerStatuses.STARTING, WorkerStatuses.STARTED),
    (WorkerStatuses.STARTED, WorkerStatuses.STOPPING),
    (WorkerStatuses.STOPPING, WorkerStatuses.STOPPED),
    (WorkerStatuses.STARTED, WorkerStatuses.SHUTTING_DOWN),
    (WorkerStatuses.STOPPED, WorkerStatuses.SHUTTING_DOWN),
    (WorkerStatuses.SHUTTING_DOWN, WorkerStatuses.SHUTTED_DOWN)])
  || decide (b = WorkerStatuses.FAILED)

/-- Exit classification as the spec words it (claim C2): exactly one reason per
termination; `NormalExit` when the status is STOPPING or SHUTTING_DOWN and the
code is 0; otherwise status FAILED with `ExternalSignal` on a signal and
`AbnormalExit` otherwise.  Returns the status after the termination and the
emitted reason. -/
def specExitClassification (st : Nat) (code : Int) (signal : Option String) :
    Nat × List ExitReason :=
  if (st = WorkerStatuses.STOPPING ∨ st = WorkerStatuses.SHUTTING_DOWN) ∧ code = 0 then
    (st, [ExitReason.NormalExit code])
  else
    (WorkerStatuses.FAILED,
     if jsTruthy signal then
       [ExitReason.ExternalSignal (signal.getD default)]
     else
       [ExitReason.AbnormalExit code])

/-- Exit classification as the code actually behaves (the amendment of claim
C2): in STOPPING or SHUTTING_DOWN the status is kept and `NormalExit` is
emitted exactly when the code is 0 (nothing at all is emitted for a nonzero
code); in every other status the status becomes FAILED with `ExternalSignal`
on a truthy signal and `AbnormalExit` otherwise; at most one reason is ever
emitted. -/
def specExitClassificationAmended (st : Nat) (code : Int) (signal : Option String) :
    Nat × List ExitReason :=
  if st = WorkerStatuses.STOPPING ∨ st = WorkerStatuses.SHUTTING_DOWN then
    (st, if code = 0 then [ExitReason.NormalExit code] else [])
  else
    (WorkerStatuses.FAILED,
     if jsTruthy signal then
       [ExitReason.ExternalSignal (signal.getD default)]
     else
       [ExitReason.AbnormalExit code])

/-! Closed forms for the group operations on cooperating children, used to
state and prove the group-level claims. -/

/-- The handles a fully successful `_startGroup` of `n` fresh handles leaves
behind, when cluster ids are handed out from `nid`. -/
def startedWorkers : Nat → Nat → List Worker
  | _, 0 => []
  | nid, n + 1 =>
    { procId := some nid, status := WorkerStatuses.STARTED } :: startedWorkers (nid + 1) n

/-- The trace of a fully successful `_startGroup` of `n` fresh handles. -/
def startActions : Nat → Nat → List ChildAction
  | _, 0 => []
  | nid, n + 1 => ChildAction.startW nid :: startActions (nid + 1) n

/-- Property template for claim C8: the acknowledgment operation `op` sends a
status report upstream precisely when the local status actually changes to
`target`, and a repeated invocation with the current status sends nothing and
changes nothing. -/
def reportsIffChanged (op : MessageBus → MessageBus) (target : Nat) : Prop :=
  ∀ b : MessageBus,
    (b.status ≠ target →
      (op b).status = target ∧ (op b).sent = b.sent ++ [(statusChangedEvent, target)])
    ∧ (b.status = target → op b = b)

/-! Helper lemmas about the group operations on cooperating children. -/

/-- A fully successful sequential start of `n` fresh handles. -/
theorem startGroup_fresh (env : Nat → Bool) (henv : ∀ i, env i = true) :
    ∀ (n nid : Nat), startGroup env (Master.createWorkerCollection n) nid
      = (startedWorkers nid n, nid + n, startActions nid n, true) := by
  intro n
  induction n with
  | zero =>
    intro nid
    simp [Master.createWorkerCollection, startGroup, startedWorkers, startActions]
  | succ k ih =>
    intro nid
    have hw : workerStart env nid newWorker
        = (true, { procId := some nid, status := WorkerStatuses.STARTED }, nid + 1,
           [ChildAction.startW nid]) := by
      simp [workerStart, newWorker, henv nid]
    have hrep : Master.createWorkerCollection (k + 1)
        = newWorker :: Master.createWorkerCollection k := by
      simp [Master.createWorkerCollection, List.replicate_succ]
    rw [hrep, startGroup, hw]
    dsimp only
    rw [ih (nid + 1)]
    dsimp only
    simp only [startedWorkers, startActions, List.singleton_append]
    have harith : nid + 1 + k = nid + (k + 1) := by omega
    rw [harith]

theorem startedWorkers_length : ∀ (nid n : Nat), (startedWorkers nid n).length = n := by
  intro nid n
  induction n generalizing nid with
  | zero => simp [startedWorkers]
  | succ k ih => simp [startedWorkers, ih]

theorem startedWorkers_mem : ∀ (n nid : Nat) (w : Worker), w ∈ startedWorkers nid n →
    w.status = WorkerStatuses.STARTED ∧ ∃ pid, w.procId = some pid ∧ nid ≤ pid := by
  intro n
  induction n with
  | zero => intro nid w hw; simp [startedWorkers] at hw
  | succ k ih =>
    intro nid w hw
    simp only [startedWorkers, List.mem_cons] at hw
    rcases hw with rfl | hw
    · exact ⟨rfl, nid, rfl, Nat.le_refl nid⟩
    · obtain ⟨hs, pid, hp, hle⟩ := ih (nid + 1) w hw
      exact ⟨hs, pid, hp, by omega⟩

/-- Hard kill never touches the collection entries. -/
theorem killGroup_hard_workers : ∀ ws : List Worker, (killGroup true ws).1 = ws := by
  intro ws
  induction ws with
  | nil => rfl
  | cons w ws ih =>
    cases hp : w.procId with
    | none => simp [killGroup, workerQuit, hp]
    | some id => simp [killGroup, workerQuit, hp, ih]

/-- Hard kill of handles that all hold a child reference succeeds and issues
one SIGKILL per handle. -/
theorem killGroup_hard_live (ws : List Worker) (h : ∀ w ∈ ws, w.procId ≠ none) :
    killGroup true ws
      = (ws, ws.map (fun w => ChildAction.hardKill (w.procId.getD 0)), true) := by
  induction ws with
  | nil => rfl
  | cons w ws ih =>
    cases hp : w.procId with
    | none => exact absurd hp (h w (List.mem_cons_self w ws))
    | some id =>
      have ih2 := ih (fun w2 hw2 => h w2 (List.mem_cons_of_mem w hw2))
      simp [killGroup, workerQuit, hp, ih2]

/-- Graceful kill of handles that all hold a child reference succeeds, drives
each to SHUTTED_DOWN and issues one graceful quit per handle. -/
theorem killGroup_graceful_live (ws : List Worker) (h : ∀ w ∈ ws, w.procId ≠ none) :
    killGroup false ws
      = (ws.map (fun w => { w with status := WorkerStatuses.SHUTTED_DOWN }),
         ws.map (fun w => ChildAction.gracefulKill (w.procId.getD 0)), true) := by
  induction ws with
  | nil => rfl
  | cons w ws ih =>
    cases hp : w.procId with
    | none => exact absurd hp (h w (List.mem_cons_self w ws))
    | some id =>
      have ih2 := ih (fun w2 hw2 => h w2 (List.mem_cons_of_mem w hw2))
      simp [killGroup, workerQuit, hp, ih2]

/-- Graceful stop of handles that all hold a child reference drives each to
STOPPED and issues one stop per handle. -/
theorem stopGroup_live (ws : List Worker) (h : ∀ w ∈ ws, w.procId ≠ none) :
    stopGroup ws
      = (ws.map (fun w => { w with status := WorkerStatuses.STOPPED }),
         ws.map (fun w => ChildAction.stopW (w.procId.getD 0))) := by
  induction ws with
  | nil => rfl
  | cons w ws ih =>
    cases hp : w.procId with
    | none => exact absurd hp (h w (List.mem_cons_self w ws))
    | some id =>
      have ih2 := ih (fun w2 hw2 => h w2 (List.mem_cons_of_mem w hw2))
      simp [stopGroup, workerStop, hp, ih2]

/-! Claim theorems. -/

/-- C1: the claim says that when some handle fails to start, `Master.start`
rejects and tears down (hard-kills) every already-started sibling before the
error propagates.  Evaluating `Master.start` at the failing input — two
handles, the first child starts, the second fails — shows the rejection, but
the already-started first worker is left STARTED inside the collection and the
trace holds no kill of any kind: the teardown stated by the claim (and by the
doc comment of `Master.start` itself) does not happen. -/
theorem C1_start_failure_keeps_started_sibling :
    (Master.start (fun id => id == 0) (Master.create 2)).result
        = Except.error Err.WorkerStartError
    ∧ (Master.start (fun id => id == 0) (Master.create 2)).state.workers
        = [{ procId := some 0, status := WorkerStatuses.STARTED },
           { procId := some 1, status := WorkerStatuses.STARTING }]
    ∧ (Master.start (fun id => id == 0) (Master.create 2)).trace
        = [ChildAction.startW 0] :=
  ⟨rfl, rfl, rfl⟩

/-- C2 counterexample: a child of a STOPPING handle exits with code 1 and no
signal.  The claim demands exactly one ExitReason (here `AbnormalExit 1`) and
status FAILED; the code emits no reason at all and keeps the status. -/
theorem C2_counterexample :
    (Worker.exitHandler { procId := some 1, status := WorkerStatuses.STOPPING } 1 none).2 = []
    ∧ (Worker.exitHandler { procId := some 1, status := WorkerStatuses.STOPPING } 1 none).1.status
        = WorkerStatuses.STOPPING
    ∧ specExitClassification WorkerStatuses.STOPPING 1 none
        = (WorkerStatuses.FAILED, [ExitReason.AbnormalExit 1])
    ∧ ((Worker.exitHandler { procId := some 1, status := WorkerStatuses.STOPPING } 1 none).1.status,
        (Worker.exitHandler { procId := some 1, status := WorkerStatuses.STOPPING } 1 none).2)
        ≠ specExitClassification WorkerStatuses.STOPPING 1 none := by
  refine ⟨rfl, rfl, rfl, ?_⟩
  decide

/-- C2 (amended): the exit classification the code implements.  In STOPPING or
SHUTTING_DOWN the status is kept and `NormalExit{code}` is emitted exactly
when the exit code is 0 — a nonzero code in these statuses emits nothing;
in every other status the status becomes FAILED and `ExternalSignal{signal}`
is emitted when the child was terminated by a signal, else `AbnormalExit{code}`;
at most one ExitReason is produced per termination, not always exactly one. -/
theorem C2_exit_classification (w : Worker) (code : Int) (signal : Option String) :
    ((w.exitHandler code signal).1.status, (w.exitHandler code signal).2)
      = specExitClassificationAmended w.status code signal
    ∧ (w.exitHandler code signal).2.length ≤ 1
    ∧ (w.exitHandler code signal).1.procId = w.procId := by
  unfold Worker.exitHandler specExitClassificationAmended
  refine ⟨?_, ?_, ?_⟩
  · split <;> simp
  · split <;> [split <;> simp; split <;> simp]
  · split <;> simp

/-- C5 counterexample: a STARTED handle receives an IPC status report carrying
STARTING.  The code applies it — the status moves backwards — although the
spec transition relation forbids the step. -/
theorem C5_counterexample :
    (Worker.messageHandler { procId := some 1, status := WorkerStatuses.STARTED }
        statusChangedEvent WorkerStatuses.STARTING).status = WorkerStatuses.STARTING
    ∧ specForwardStep WorkerStatuses.STARTED WorkerStatuses.STARTING = false :=
  ⟨rfl, rfl⟩

/-- C5 (amended): status updates are not constrained to the forward
transitions.  `_changeStatus` (as reached through inbound IPC status reports)
applies any member of the status enum — skips and reversals included — and
only a value outside the enum is rejected, leaving the status unchanged. -/
theorem C5_any_enum_status_applied (w : Worker) (b : Nat)
    (hb : b ∈ WorkerStatuses.values) :
    (Worker.messageHandler w statusChangedEvent b).status = b
    ∧ ∀ c, c ∉ WorkerStatuses.values →
        (Worker.messageHandler w statusChangedEvent c).status = w.status := by
  constructor
  · unfold Worker.messageHandler Worker.changeStatus
    simp only [if_pos rfl, if_pos hb]
    by_cases h : w.status = b <;> simp [h]
  · intro c hc
    unfold Worker.messageHandler Worker.changeStatus
    simp [hc]

/-- C5 witness: instance of `C5_any_enum_status_applied` at a STARTED handle —
the valid status STARTING is applied, the invalid value 9 is not. -/
theorem C5_witness :
    (Worker.messageHandler { procId := some 1, status := WorkerStatuses.STARTED }
        statusChangedEvent WorkerStatuses.STARTING).status = WorkerStatuses.STARTING
    ∧ (Worker.messageHandler { procId := some 1, status := WorkerStatuses.STARTED }
        statusChangedEvent 9).status = WorkerStatuses.STARTED := by
  have h := C5_any_enum_status_applied
    { procId := some 1, status := WorkerStatuses.STARTED }
    WorkerStatuses.STARTING (by decide)
  exact ⟨h.1, h.2 9 (by decide)⟩

/-- C6: for a handle in INITIALIZED status, `start` resolves exactly when the
observed status-changed stream begins with [STARTING, STARTED]; the first
observed value deviating from the next expected one rejects with a
`WorkerStatusError` carrying the expected and the actual status. -/
theorem C6_start_status_sequence (w : Worker)
    (hw : w.status = WorkerStatuses.INITIALIZED) (observed : List Nat) :
    (w.startOutcome observed = Except.ok AssureOutcome.resolved ↔
      ∃ rest, observed = WorkerStatuses.STARTING :: WorkerStatuses.STARTED :: rest)
    ∧ (∀ a rest, observed = a :: rest → a ≠ WorkerStatuses.STARTING →
        w.startOutcome observed
          = Except.ok (AssureOutcome.rejected WorkerStatuses.STARTING a))
    ∧ (∀ b rest, observed = WorkerStatuses.STARTING :: b :: rest →
        b ≠ WorkerStatuses.STARTED →
        w.startOutcome observed
          = Except.ok (AssureOutcome.rejected WorkerStatuses.STARTED b)) := by
  have hout : w.startOutcome observed
      = Except.ok (assureStatusSequence
          [WorkerStatuses.STARTING, WorkerStatuses.STARTED] observed) := by
    unfold Worker.startOutcome
    simp [hw]
  refine ⟨?_, ?_, ?_⟩
  · rw [hout]
    constructor
    · intro h
      match observed with
      | [] => simp [assureStatusSequence] at h
      | a :: rest =>
        by_cases ha : a = WorkerStatuses.STARTING
        · subst ha
          match rest with
          | [] => simp [assureStatusSequence] at h
          | b :: rest2 =>
            by_cases hb : b = WorkerStatuses.STARTED
            · exact ⟨rest2, by rw [hb]⟩
            · simp [assureStatusSequence, hb] at h
        · simp [assureStatusSequence, ha] at h
    · rintro ⟨rest, rfl⟩
      simp [assureStatusSequence]
  · rintro a rest rfl ha
    rw [hout]
    simp [assureStatusSequence, ha]
  · rintro b rest rfl hb
    rw [hout]
    simp [assureStatusSequence, hb]

/-- C6 witness: instance of `C6_start_status_sequence` at a fresh handle — the
stream [STARTING, STARTED] resolves, a first observation of FAILED rejects
with expected STARTING and actual FAILED. -/
theorem C6_witness :
    Worker.startOutcome { procId := none, status := WorkerStatuses.INITIALIZED }
        [WorkerStatuses.STARTING, WorkerStatuses.STARTED]
      = Except.ok AssureOutcome.resolved
    ∧ Worker.startOutcome { procId := none, status := WorkerStatuses.INITIALIZED }
        [WorkerStatuses.FAILED]
      = Except.ok (AssureOutcome.rejected WorkerStatuses.STARTING WorkerStatuses.FAILED) := by
  have h1 := C6_start_status_sequence
    { procId := none, status := WorkerStatuses.INITIALIZED } rfl
    [WorkerStatuses.STARTING, WorkerStatuses.STARTED]
  have h2 := C6_start_status_sequence
    { procId := none, status := WorkerStatuses.INITIALIZED } rfl
    [WorkerStatuses.FAILED]
  exact ⟨h1.1.mpr ⟨[], rfl⟩, h2.2.1 WorkerStatuses.FAILED [] rfl (by decide)⟩

/-- C7: the claim says the timeout-bounded wait clears its timer on success.
Evaluating the manager at the failing input — bind, `assure(1, STARTED)`, then
the awaited status arrives before the timer — shows: the wait is registered
with the timer armed and a repeated `assure` reuses it, but when the status
change fires the listener finds neither `timeout` nor `resolve` on the stored
wrapper promise (both were attached to the inner promise of the `async`
`_deferredStatus`), throws a `TypeError`, and leaves the timer armed and the
wait unsettled; when the timer then fires the wait rejects with
`TimeoutError` although the status had been observed. -/
theorem C7_assured_status_still_times_out :
    Except.bind (SheepStatusManager.create 2000) SheepStatusManager.bindDrover
      = Except.ok { statusTimeout := 2000, bound := true, pending := [] }
    ∧ SheepStatusManager.assure
        { statusTimeout := 2000, bound := true, pending := [] } 1 WorkerStatuses.STARTED
      = Except.ok
          ({ statusTimeout := 2000, bound := true,
             pending := [(1, { timerArmed := true, settled := none })] },
           { timerArmed := true, settled := none })
    ∧ SheepStatusManager.assure
        { statusTimeout := 2000, bound := true,
          pending := [(1, { timerArmed := true, settled := none })] } 1 WorkerStatuses.STARTED
      = Except.ok
          ({ statusTimeout := 2000, bound := true,
             pending := [(1, { timerArmed := true, settled := none })] },
           { timerArmed := true, settled := none })
    ∧ SheepStatusManager.onSheepStatusChange
        { statusTimeout := 2000, bound := true,
          pending := [(1, { timerArmed := true, settled := none })] } 1 WorkerStatuses.STARTED
      = ({ statusTimeout := 2000, bound := true,
           pending := [(1, { timerArmed := true, settled := none })] },
         some Err.TypeErrorUndefined)
    ∧ SheepStatusManager.onStatusTimeout
        { statusTimeout := 2000, bound := true,
          pending := [(1, { timerArmed := true, settled := none })] } 1
      = { statusTimeout := 2000, bound := true,
          pending := [(1, { timerArmed := false,
                            settled := some (Except.error Err.TimeoutError) })] } :=
  ⟨rfl, rfl, rfl, rfl, rfl⟩

/-- C8: each of the three acknowledgment operations of the child-side channel
sends a status report upstream exactly when the local status actually changes
to the target value; a repeated call with the current status sends nothing and
leaves the channel unchanged. -/
theorem C8_acks_report_iff_changed :
    reportsIffChanged MessageBus.sendStarted WorkerStatuses.STARTED
    ∧ reportsIffChanged MessageBus.sendStopped WorkerStatuses.STOPPED
    ∧ reportsIffChanged MessageBus.sendShuttedDown WorkerStatuses.SHUTTED_DOWN := by
  refine ⟨?_, ?_, ?_⟩ <;> intro b <;> constructor <;> intro h <;>
    simp [MessageBus.sendStarted, MessageBus.sendStopped, MessageBus.sendShuttedDown,
      MessageBus.changeStatus, h]

/-- C8 witness: instance of `C8_acks_report_iff_changed` — a first
`sendStarted` on an INITIALIZED channel reports and moves to STARTED, a second
`sendStarted` sends nothing and changes nothing. -/
theorem C8_witness :
    (MessageBus.sendStarted { status := WorkerStatuses.INITIALIZED, sent := [] }).status
      = WorkerStatuses.STARTED
    ∧ (MessageBus.sendStarted { status := WorkerStatuses.INITIALIZED, sent := [] }).sent
      = [(statusChangedEvent, WorkerStatuses.STARTED)]
    ∧ MessageBus.sendStarted
        { status := WorkerStatuses.STARTED,
          sent := [(statusChangedEvent, WorkerStatuses.STARTED)] }
      = { status := WorkerStatuses.STARTED,
          sent := [(statusChangedEvent, WorkerStatuses.STARTED)] } := by
  have h1 := (C8_acks_report_iff_changed.1
    { status := WorkerStatuses.INITIALIZED, sent := [] }).1 (by decide)
  have h2 := (C8_acks_report_iff_changed.1
    { status := WorkerStatuses.STARTED,
      sent := [(statusChangedEvent, WorkerStatuses.STARTED)] }).2 rfl
  exact ⟨h1.1, by simpa using h1.2, h2⟩

/-- C9: `quit(true)` on a handle whose `start` was never invoked dereferences
the absent child reference and throws instead of resolving as a no-op, and
`hardShutdown` on a freshly created master therefore rejects instead of
completing. -/
theorem C9_quit_without_process_throws (w : Worker) (hw : w.procId = none)
    (n : Nat) (hn : 0 < n) :
    workerQuit true w = Except.error Err.TypeErrorUndefined
    ∧ (Master.hardShutdown (Master.create n)).result
        = Except.error Err.TypeErrorUndefined := by
  constructor
  · simp [workerQuit, hw]
  · obtain ⟨k, rfl⟩ : ∃ k, n = k + 1 := ⟨n - 1, by omega⟩
    simp [Master.hardShutdown, Master.create, Master.createWorkerCollection,
      List.replicate_succ, killGroup, workerQuit, newWorker]

/-- C9 witness: instance of `C9_quit_without_process_throws` at a fresh handle
and a two-handle master. -/
theorem C9_witness :
    workerQuit true { procId := none, status := WorkerStatuses.INITIALIZED }
      = Except.error Err.TypeErrorUndefined
    ∧ (Master.hardShutdown (Master.create 2)).result
      = Except.error Err.TypeErrorUndefined :=
  C9_quit_without_process_throws
    { procId := none, status := WorkerStatuses.INITIALIZED } rfl 2 (by decide)

theorem hardShutdown_workers (m : Master) :
    (Master.hardShutdown m).state.workers = m.workers := by
  have hkw := killGroup_hard_workers m.workers
  unfold Master.hardShutdown
  rcases hk : killGroup true m.workers with ⟨ws, tr, ok⟩
  rw [hk] at hkw
  cases ok <;> simpa using hkw

theorem gracefulShutdown_ok_empties (m : Master)
    (h : (Master.gracefulShutdown m).result = Except.ok ()) :
    (Master.gracefulShutdown m).state.workers = [] := by
  unfold Master.gracefulShutdown at h ⊢
  by_cases hs : m.status ∈ [Master.STATUS_STARTED, Master.STATUS_STOPPED]
  · simp only [hs, not_true_eq_false, if_false] at h ⊢
    by_cases hstop : m.status = Master.STATUS_STOPPED
    · simp only [hstop, ne_eq, not_true_eq_false, if_false] at h ⊢
      by_cases hko : (killGroup false m.workers).2.2 = true
      · simp [hko]
      · simp [hko] at h
    · have hstarted : m.status = Master.STATUS_STARTED := by
        simp only [List.mem_cons, List.not_mem_nil, or_false, Master.STATUS_STARTED,
          Master.STATUS_STOPPED] at hs
        simp only [Master.STATUS_STOPPED] at hstop
        simp only [Master.STATUS_STARTED]
        omega
      simp only [hstop, ne_eq, not_false_eq_true, if_true, Master.gracefulStop, hstarted,
        not_true_eq_false, if_false, Master.STATUS_STARTED, Master.STATUS_STOPPED,
        show ¬(3 : Nat) = 5 by omega] at h ⊢
      by_cases hko : (killGroup false (stopGroup m.workers).1).2.2 = true
      · simp [hko] at h ⊢
      · simp [hko] at h
  · simp [hs] at h

/-- C10: after a completed `hardShutdown` the collection is not emptied — the
statuses snapshot is exactly the one from before the call, one entry per
previously owned handle — whereas a completed `gracefulShutdown` leaves the
collection empty and the statuses snapshot empty. -/
theorem C10_hardShutdown_keeps_collection (m : Master)
    (hh : (Master.hardShutdown m).result = Except.ok ()) :
    (Master.hardShutdown m).state.workers.length = m.workers.length
    ∧ Master.getWorkersStatuses (Master.hardShutdown m).state
        = Master.getWorkersStatuses m
    ∧ ∀ m2 : Master, (Master.gracefulShutdown m2).result = Except.ok () →
        (Master.gracefulShutdown m2).state.workers = []
        ∧ Master.getWorkersStatuses (Master.gracefulShutdown m2).state = [] := by
  refine ⟨?_, ?_, ?_⟩
  · rw [hardShutdown_workers m]
  · unfold Master.getWorkersStatuses
    rw [hardShutdown_workers m]
  · intro m2 h2
    have he := gracefulShutdown_ok_empties m2 h2
    refine ⟨he, ?_⟩
    unfold Master.getWorkersStatuses
    rw [he]
    rfl

/-- C10 witness: instance of `C10_hardShutdown_keeps_collection` at a started
single-handle master. -/
theorem C10_witness :
    (Master.hardShutdown
        { status := Master.STATUS_STARTED, scale := 1,
          workers := [{ procId := some 0, status := WorkerStatuses.STARTED }],
          nextId := 1 }).state.workers.length = 1
    ∧ (Master.gracefulShutdown
        { status := Master.STATUS_STARTED, scale := 1,
          workers := [{ procId := some 0, status := WorkerStatuses.STARTED }],
          nextId := 1 }).state.workers = [] := by
  have h := C10_hardShutdown_keeps_collection
    { status := Master.STATUS_STARTED, scale := 1,
      workers := [{ procId := some 0, status := WorkerStatuses.STARTED }],
      nextId := 1 } rfl
  exact ⟨by simpa using h.1,
    (h.2.2 { status := Master.STATUS_STARTED, scale := 1,
             workers := [{ procId := some 0, status := WorkerStatuses.STARTED }],
             nextId := 1 } rfl).1⟩

theorem rescale_up_eq (env : Nat → Bool) (m : Master) (size : Int)
    (hst : m.status = Master.STATUS_STARTED) (henv : ∀ i, env i = true)
    (hup : (m.workers.length : Int) < size) :
    Master.rescale env m size
      = { result := Except.ok (size - (m.workers.length : Int)),
          state := { m with
            scale := size,
            workers := m.workers
              ++ startedWorkers m.nextId (size - (m.workers.length : Int)).toNat,
            nextId := m.nextId + (size - (m.workers.length : Int)).toNat },
          trace := startActions m.nextId (size - (m.workers.length : Int)).toNat } := by
  have h0 : ¬ size ≤ 0 := by omega
  have h1 : ¬ m.status ≠ Master.STATUS_STARTED := by simp [hst]
  unfold Master.rescale
  rw [if_neg h0, if_neg h1]
  dsimp only
  rw [if_pos (show size - (m.workers.length : Int) > 0 by omega)]
  rw [startGroup_fresh env henv]
  rfl

theorem rescale_down_eq (env : Nat → Bool) (m : Master) (size : Int)
    (hst : m.status = Master.STATUS_STARTED) (hpos : 0 < size)
    (hdown : size < (m.workers.length : Int))
    (hwf : ∀ w ∈ m.workers, w.procId ≠ none) :
    Master.rescale env m size
      = { result := Except.ok (size - (m.workers.length : Int)),
          state := { m with
            scale := size,
            workers := m.workers.drop (size - (m.workers.length : Int)).natAbs },
          trace := (m.workers.take (size - (m.workers.length : Int)).natAbs).map
            (fun w => ChildAction.gracefulKill (w.procId.getD 0)) } := by
  have h0 : ¬ size ≤ 0 := by omega
  have h1 : ¬ m.status ≠ Master.STATUS_STARTED := by simp [hst]
  unfold Master.rescale
  rw [if_neg h0, if_neg h1]
  dsimp only
  rw [if_neg (show ¬ size - (m.workers.length : Int) > 0 by omega)]
  rw [if_pos (show size - (m.workers.length : Int) < 0 by omega)]
  rw [killGroup_graceful_live _
    (fun w hw => hwf w (List.take_subset _ _ hw))]
  rfl

theorem rescale_same_eq (env : Nat → Bool) (m : Master) (size : Int)
    (hst : m.status = Master.STATUS_STARTED) (hpos : 0 < size)
    (heq : size = (m.workers.length : Int)) :
    Master.rescale env m size
      = { result := Except.ok 0, state := { m with scale := size }, trace := [] } := by
  have h0 : ¬ size ≤ 0 := by omega
  have h1 : ¬ m.status ≠ Master.STATUS_STARTED := by simp [hst]
  unfold Master.rescale
  rw [if_neg h0, if_neg h1]
  dsimp only
  rw [if_neg (show ¬ size - (m.workers.length : Int) > 0 by omega)]
  rw [if_neg (show ¬ size - (m.workers.length : Int) < 0 by omega)]
  rw [show size - (m.workers.length : Int) = 0 by omega]

/-- C3: for a STARTED master with current count C and size S > 0, `rescale`
resolves with the signed delta S − C; scaling up appends S − C freshly started
handles after the existing ones; scaling down removes exactly C − S handles
from the lowest indices and gracefully kills precisely those; the collection
is left with S handles. -/
theorem C3_rescale_applies_signed_delta (env : Nat → Bool) (m : Master) (size : Int)
    (hst : m.status = Master.STATUS_STARTED) (hpos : 0 < size)
    (henv : ∀ i, env i = true) (hwf : ∀ w ∈ m.workers, w.procId ≠ none) :
    (Master.rescale env m size).result = Except.ok (size - (m.workers.length : Int))
    ∧ (Master.rescale env m size).state.workers.length = size.toNat
    ∧ ((m.workers.length : Int) < size →
        (Master.rescale env m size).state.workers.take m.workers.length = m.workers
        ∧ ∀ w ∈ (Master.rescale env m size).state.workers.drop m.workers.length,
            w.status = WorkerStatuses.STARTED)
    ∧ (size < (m.workers.length : Int) →
        (Master.rescale env m size).state.workers
          = m.workers.drop (size - (m.workers.length : Int)).natAbs
        ∧ (Master.rescale env m size).trace
          = (m.workers.take (size - (m.workers.length : Int)).natAbs).map
              (fun w => ChildAction.gracefulKill (w.procId.getD 0))) := by
  rcases lt_trichotomy ((m.workers.length : Int)) size with hlt | heq | hgt
  · rw [rescale_up_eq env m size hst henv hlt]
    refine ⟨rfl, ?_, ?_, ?_⟩
    · dsimp only
      rw [List.length_append, startedWorkers_length]
      omega
    · intro _
      refine ⟨?_, ?_⟩
      · dsimp only
        exact List.take_left m.workers _
      · intro w hw
        dsimp only at hw
        rw [List.drop_left] at hw
        exact (startedWorkers_mem _ _ w hw).1
    · intro hcon
      exact absurd hcon (by omega)
  · rw [rescale_same_eq env m size hst hpos heq.symm]
    refine ⟨?_, ?_, ?_, ?_⟩
    · dsimp only
      rw [show size - (m.workers.length : Int) = 0 by omega]
    · dsimp only
      omega
    · intro hcon
      exact absurd hcon (by omega)
    · intro hcon
      exact absurd hcon (by omega)
  · rw [rescale_down_eq env m size hst hpos hgt hwf]
    refine ⟨rfl, ?_, ?_, fun _ => ⟨rfl, rfl⟩⟩
    · dsimp only
      rw [List.length_drop]
      omega
    · intro hcon
      exact absurd hcon (by omega)

/-- C3 witness: instance of `C3_rescale_applies_signed_delta` — a started
master of 2 handles rescaled to 4 resolves with delta 2 and owns 4 handles. -/
theorem C3_witness :
    (Master.rescale (fun _ => true)
        { status := Master.STATUS_STARTED, scale := 2,
          workers := [{ procId := some 0, status := WorkerStatuses.STARTED },
                      { procId := some 1, status := WorkerStatuses.STARTED }],
          nextId := 2 } 4).result = Except.ok 2
    ∧ (Master.rescale (fun _ => true)
        { status := Master.STATUS_STARTED, scale := 2,
          workers := [{ procId := some 0, status := WorkerStatuses.STARTED },
                      { procId := some 1, status := WorkerStatuses.STARTED }],
          nextId := 2 } 4).state.workers.length = 4 := by
  have h := C3_rescale_applies_signed_delta (fun _ => true)
    { status := Master.STATUS_STARTED, scale := 2,
      workers := [{ procId := some 0, status := WorkerStatuses.STARTED },
                  { procId := some 1, status := WorkerStatuses.STARTED }],
      nextId := 2 } 4 rfl (by decide) (fun i => rfl) (by decide)
  exact ⟨by simpa using h.1, by simpa using h.2.1⟩

theorem gracefulReload_eq (env : Nat → Bool) (m : Master)
    (hst : m.status = Master.STATUS_STARTED) (henv : ∀ i, env i = true)
    (hwf : ∀ w ∈ m.workers, w.procId ≠ none) :
    Master.gracefulReload env m
      = { result := Except.ok (),
          state := { m with
            workers := startedWorkers m.nextId m.scale.toNat,
            nextId := m.nextId + m.scale.toNat },
          trace := startActions m.nextId m.scale.toNat
            ++ m.workers.map (fun w => ChildAction.stopW (w.procId.getD 0))
            ++ m.workers.map (fun w => ChildAction.gracefulKill (w.procId.getD 0)) } := by
  have h1 : ¬ m.status ≠ Master.STATUS_STARTED := by simp [hst]
  have hwf2 : ∀ w ∈ m.workers.map (fun w => { w with status := WorkerStatuses.STOPPED }),
      w.procId ≠ none := by
    intro w hw
    obtain ⟨w0, hw0, rfl⟩ := List.mem_map.mp hw
    simpa using hwf w0 hw0
  unfold Master.gracefulReload
  rw [if_neg h1]
  dsimp only
  rw [startGroup_fresh env henv]
  dsimp only
  rw [stopGroup_live m.workers hwf]
  dsimp only
  rw [killGroup_graceful_live _ hwf2]
  dsimp only
  rw [List.map_map]
  rfl

/-- C4: for a STARTED master, `gracefulReload` resolves after building a
replacement set sized to the desired scale, starting all replacements first,
then stopping the previously active set, then gracefully killing it; the
replacement set becomes the active collection, every replacement is STARTED,
and its process identities are disjoint from those of the old set. -/
theorem C4_reload_disjoint_replacement (env : Nat → Bool) (m : Master)
    (hst : m.status = Master.STATUS_STARTED) (henv : ∀ i, env i = true)
    (hwf : ∀ w ∈ m.workers, ∃ pid, w.procId = some pid ∧ pid < m.nextId) :
    (Master.gracefulReload env m).result = Except.ok ()
    ∧ (Master.gracefulReload env m).state.workers
        = startedWorkers m.nextId m.scale.toNat
    ∧ (Master.gracefulReload env m).state.workers.length = m.scale.toNat
    ∧ (∀ w ∈ (Master.gracefulReload env m).state.workers,
        w.status = WorkerStatuses.STARTED)
    ∧ (∀ w ∈ (Master.gracefulReload env m).state.workers,
        ∀ w2 ∈ m.workers, w.procId ≠ w2.procId)
    ∧ (Master.gracefulReload env m).trace
        = startActions m.nextId m.scale.toNat
          ++ m.workers.map (fun w => ChildAction.stopW (w.procId.getD 0))
          ++ m.workers.map (fun w => ChildAction.gracefulKill (w.procId.getD 0)) := by
  have hwf' : ∀ w ∈ m.workers, w.procId ≠ none := by
    intro w hw
    obtain ⟨pid, hp, _⟩ := hwf w hw
    simp [hp]
  rw [gracefulReload_eq env m hst henv hwf']
  refine ⟨rfl, rfl, ?_, ?_, ?_, rfl⟩
  · dsimp only
    exact startedWorkers_length _ _
  · intro w hw
    dsimp only at hw
    exact (startedWorkers_mem _ _ w hw).1
  · intro w hw w2 hw2
    dsimp only at hw
    obtain ⟨hs, pid, hp, hge⟩ := startedWorkers_mem _ _ w hw
    obtain ⟨pid2, hp2, hlt⟩ := hwf w2 hw2
    rw [hp, hp2]
    intro hcontra
    have : pid = pid2 := by injection hcontra
    omega

/-- C4 witness: instance of `C4_reload_disjoint_replacement` at a started
two-handle master — the reload resolves, leaves a fresh STARTED pair, and the
trace starts the replacements before stopping and killing the old pair. -/
theorem C4_witness :
    (Master.gracefulReload (fun _ => true)
        { status := Master.STATUS_STARTED, scale := 2,
          workers := [{ procId := some 0, status := WorkerStatuses.STARTED },
                      { procId := some 1, status := WorkerStatuses.STARTED }],
          nextId := 2 }).result = Except.ok ()
    ∧ (Master.gracefulReload (fun _ => true)
        { status := Master.STATUS_STARTED, scale := 2,
          workers := [{ procId := some 0, status := WorkerStatuses.STARTED },
                      { procId := some 1, status := WorkerStatuses.STARTED }],
          nextId := 2 }).trace
      = [ChildAction.startW 2, ChildAction.startW 3, ChildAction.stopW 0,
         ChildAction.stopW 1, ChildAction.gracefulKill 0, ChildAction.gracefulKill 1] := by
  have h := C4_reload_disjoint_replacement (fun _ => true)
    { status := Master.STATUS_STARTED, scale := 2,
      workers := [{ procId := some 0, status := WorkerStatuses.STARTED },
                  { procId := some 1, status := WorkerStatuses.STARTED }],
      nextId := 2 } rfl (fun i => rfl)
    (by
      intro w hw
      simp only [List.mem_cons, List.not_mem_nil, or_false] at hw
      rcases hw with rfl | rfl
      · exact ⟨0, rfl, by decide⟩
      · exact ⟨1, rfl, by decide⟩)
  exact ⟨h.1, by simpa using h.2.2.2.2.2⟩
